import Mathlib

/-!
Shallow embedding of `bookwyrm/models/bookwyrm_export_job.py`, the user-export
background job of the Bookwyrm repository.  Database tables are modelled as
lists of row records, Django querysets as list filters (`.distinct()` is
`List.dedup`, full-row comparison like SQL DISTINCT), exceptions as explicit
fault flags, and the persisted job row / in-memory job instance as an explicit
pair of records.  Definitions follow the source function by function; pieces of
the repository that are outside the exported slice (the model schema, the
`ParentJob` status machinery, the instance settings) are modelled from the
specification and marked as such in their doc comments.
-/

/-- JSON-like values: the shape of the payload assembled by `json_export`
(the external `DjangoJSONEncoder` renders such a value to text). -/
inductive JVal where
  | str (s : String)
  | nat (n : Nat)
  | bool (b : Bool)
  | arr (xs : List JVal)
  | obj (kvs : List (String × JVal))

/-- Modelled from the spec: the `User` schema row ("profile" and follow/block
data are pre-existing schema rows owned by the surrounding framework).  Only
the columns read by `json_export` and `tar_export` are kept.  `avatar` is the
image URL when the user has a truthy avatar file, `none` otherwise. -/
structure UserRow where
  id : Nat
  username : String
  name : String
  summary : String
  manually_approves_followers : Bool
  hide_follows : Bool
  show_goal : Bool
  show_suggested_users : Bool
  discoverable : Bool
  preferred_timezone : String
  default_post_privacy : String
  avatar : Option String
  remote_id : String
  saved_lists : List Nat
deriving DecidableEq, Repr

/-- Modelled from the spec: an `AnnualGoal` schema row (a "reading goal"). -/
structure AnnualGoal where
  id : Nat
  user : Nat
  goal : Nat
  year : Nat
  privacy : String
deriving DecidableEq, Repr

/-- Modelled from the spec: a `ReadThrough` schema row.  `vals` is the flat
column mapping produced by the queryset method `values()`. -/
structure ReadThrough where
  id : Nat
  user : Nat
  book : Nat
  vals : List (String × String)
deriving DecidableEq, Repr

/-- Modelled from the spec: a `ShelfBook` schema row (the through table of the
shelf/edition many-to-many relation). -/
structure ShelfBook where
  id : Nat
  user : Nat
  shelf : Nat
  book : Nat
  vals : List (String × String)
deriving DecidableEq, Repr

/-- Modelled from the spec: a `Shelf` schema row. -/
structure ShelfRow where
  id : Nat
  user : Nat
  identifier : String
  vals : List (String × String)
deriving DecidableEq, Repr

/-- Modelled from the spec: a `List` schema row (a user-curated book list).
Its books are related through `ListItem` rows. -/
structure BookList where
  id : Nat
  user : Nat
  name : String
  remote_id : String
  vals : List (String × String)
deriving DecidableEq, Repr

/-- Modelled from the spec: a `ListItem` schema row (the through table of the
list/edition many-to-many relation). -/
structure ListItem where
  id : Nat
  book_list : Nat
  book : Nat
  vals : List (String × String)
deriving DecidableEq, Repr

/-- Modelled from the spec: a status row attached to a user and a book; the
`Review`, `Comment` and `Quotation` tables all have this shape as far as
`json_export` reads them. -/
structure StatusRow where
  id : Nat
  user : Nat
  book : Nat
  vals : List (String × String)
deriving DecidableEq, Repr

/-- Modelled from the spec: an `Edition` schema row.  `cover` is the cover
image when truthy, `authors` the related author ids. -/
structure EditionRow where
  id : Nat
  cover : Option String
  authors : List Nat
  vals : List (String × String)
deriving DecidableEq, Repr

/-- Modelled from the spec: a `Book` schema row (the parent table of
`Edition` under multi-table inheritance). -/
structure BookRow where
  id : Nat
  vals : List (String × String)
deriving DecidableEq, Repr

/-- Modelled from the spec: an `Author` schema row. -/
structure AuthorRow where
  id : Nat
  vals : List (String × String)
deriving DecidableEq, Repr

/-- Modelled from the spec: a user-relationship schema row; `UserFollows` and
`UserBlocks` both relate a `user_subject` to a `user_object`. -/
structure UserRelationship where
  id : Nat
  user_subject : Nat
  user_object : Nat
deriving DecidableEq, Repr

/-- The relational store the export reads.  `visible` is modelled from the
spec: `Edition.viewer_aware_objects` (defined outside this slice) restricts
editions to those visible to the viewing user; `visible e v` says edition `e`
is visible to user `v`. -/
structure Database where
  users : List UserRow
  editions : List EditionRow
  books : List BookRow
  authors : List AuthorRow
  annual_goals : List AnnualGoal
  readthroughs : List ReadThrough
  shelves : List ShelfRow
  shelf_books : List ShelfBook
  book_lists : List BookList
  list_items : List ListItem
  reviews : List StatusRow
  comments : List StatusRow
  quotations : List StatusRow
  user_follows : List UserRelationship
  user_blocks : List UserRelationship
  visible : Nat → Nat → Bool

/-- Modelled from the spec: `Edition.viewer_aware_objects(user)`. -/
def viewer_aware_objects (db : Database) (u : UserRow) : List EditionRow :=
  db.editions.filter (fun e => db.visible e.id u.id)

/-- The disjunction of the six `Q` relations of `get_books_for_user`:
the edition is on one of the user's shelves, or has a readthrough, review,
list membership, comment or quotation by the user. -/
def editionMatches (db : Database) (u : UserRow) (e : EditionRow) : Bool :=
  (db.shelf_books.any (fun sb =>
      sb.book == e.id && db.shelves.any (fun s => s.id == sb.shelf && s.user == u.id)))
  || db.readthroughs.any (fun rt => rt.book == e.id && rt.user == u.id)
  || db.reviews.any (fun r => r.book == e.id && r.user == u.id)
  || (db.book_lists.any (fun l =>
      l.user == u.id && db.list_items.any (fun li => li.book_list == l.id && li.book == e.id)))
  || db.comments.any (fun c => c.book == e.id && c.user == u.id)
  || db.quotations.any (fun q => q.book == e.id && q.user == u.id)

/-- `get_books_for_user(user)`: the viewer-aware editions related to the user
through at least one of the six relations, made distinct, and the `Book` rows
whose ids occur among those editions. -/
def get_books_for_user (db : Database) (u : UserRow) : List EditionRow × List BookRow :=
  let editions := ((viewer_aware_objects db u).filter (editionMatches db u)).dedup
  let books := (db.books.filter (fun b => editions.any (fun e => e.id == b.id))).dedup
  (editions, books)

/-- Modelled from the spec: the instance domain, an external deployment
setting (`bookwyrm.settings.DOMAIN`). -/
def DOMAIN : String := "example.com"

/-- Lift a flat `values()` column mapping to a JSON object. -/
def valsJ (vs : List (String × String)) : JVal :=
  JVal.obj (vs.map (fun p => (p.1, JVal.str p.2)))

/-- Python-dict key assignment `d[k] = v`: replace the value of an existing
key in place, otherwise append the new key at the end (insertion order). -/
def setKey : List (String × JVal) → String → JVal → List (String × JVal)
  | [], k, v => [(k, v)]
  | p :: rest, k, v => if p.1 = k then (k, v) :: rest else p :: setKey rest k v

/-- Key lookup in an assembled JSON object. -/
def jlookup : List (String × JVal) → String → Option JVal
  | [], _ => none
  | p :: rest, k => if p.1 = k then some p.2 else jlookup rest k

/-- Field access on a JSON value: defined on objects only. -/
def jfield : JVal → String → Option JVal
  | .obj kvs, k => jlookup kvs k
  | _, _ => none

/-- The keys of a top-level JSON object. -/
def JVal.topKeys : JVal → Option (List String)
  | .obj kvs => some (kvs.map (fun p => p.1))
  | _ => none

/-- Exception model for one run: the ORM raises at explicit points.
`goalsFailAfter = some k` makes the iteration over the reading goals raise
after yielding `k` rows; `readthroughsFail` makes the top-level readthroughs
fetch raise; `jsonFail`, `tarFail` and `saveFail` make `json_export`,
`tar_export` and the `job.save` call raise uncaught exceptions. -/
structure Faults where
  goalsFailAfter : Option Nat
  readthroughsFail : Bool
  jsonFail : Bool
  tarFail : Bool
  saveFail : Bool
deriving DecidableEq, Repr

/-- A run with no faults. -/
def noFaults : Faults :=
  { goalsFailAfter := none, readthroughsFail := false
    jsonFail := false, tarFail := false, saveFail := false }

/-- The `exported_user` dictionary of `json_export`: the ten profile columns,
plus the avatar URL when the user has a truthy avatar. -/
def exported_user (u : UserRow) : List (String × JVal) :=
  let base : List (String × JVal) :=
    [("username", .str u.username),
     ("name", .str u.name),
     ("summary", .str u.summary),
     ("manually_approves_followers", .bool u.manually_approves_followers),
     ("hide_follows", .bool u.hide_follows),
     ("show_goal", .bool u.show_goal),
     ("show_suggested_users", .bool u.show_suggested_users),
     ("discoverable", .bool u.discoverable),
     ("preferred_timezone", .str u.preferred_timezone),
     ("default_post_privacy", .str u.default_post_privacy)]
  match u.avatar with
  | some av => base ++ [("avatar", .str ("https://" ++ DOMAIN ++ av))]
  | none => base

/-- One entry of the `goals_list` loop body. -/
def goalEntry (g : AnnualGoal) : JVal :=
  .obj [("goal", .nat g.goal), ("year", .nat g.year), ("privacy", .str g.privacy)]

/-- The `goals_list` computation of `json_export`: iterate the user's distinct
reading goals inside a broad `try`; an exception mid-iteration is suppressed,
leaving the entries collected so far. -/
def goals_list (db : Database) (flt : Faults) (u : UserRow) : List JVal :=
  let reading_goals := (db.annual_goals.filter (fun g => g.user == u.id)).dedup
  match flt.goalsFailAfter with
  | none => reading_goals.map goalEntry
  | some k => (reading_goals.take k).map goalEntry

/-- The top-level `readthroughs` variable of `json_export`: the user's
distinct readthrough rows as `values()` dictionaries, or `[]` when the fetch
raises (the broad `except` suppresses the exception).  The variable is never
read again after being bound. -/
def jsonExportReadthroughs (db : Database) (flt : Faults) (u : UserRow) :
    List (List (String × String)) :=
  if flt.readthroughsFail then []
  else ((db.readthroughs.filter (fun rt => rt.user == u.id)).dedup).map (fun rt => rt.vals)

/-- The `book["authors"]` value: the `values()` dictionaries of the authors
related to the matched edition (`edition.first().authors.all().values()`). -/
def authorsJ (db : Database) (e : EditionRow) : JVal :=
  .arr ((db.authors.filter (fun a => e.authors.contains a.id)).map (fun a => valsJ a.vals))

/-- The `book["readthroughs"]` value: the user's distinct readthroughs of this
book, as `values()` dictionaries. -/
def bookReadthroughsJ (db : Database) (u : UserRow) (b : BookRow) : JVal :=
  .arr (((db.readthroughs.filter (fun rt => rt.user == u.id && rt.book == b.id)).dedup).map
    (fun rt => valsJ rt.vals))

/-- The `shelf_books` queryset of the loop body: the user's distinct
`ShelfBook` rows for this book. -/
def shelfBooksFor (db : Database) (u : UserRow) (b : BookRow) : List ShelfBook :=
  (db.shelf_books.filter (fun sb => sb.user == u.id && sb.book == b.id)).dedup

/-- The `shelves_from_books` queryset: the user's shelves joined through those
`ShelfBook` rows (the join yields no duplicates because `ShelfBook` rows are
unique per shelf and book in the external schema). -/
def shelvesFromBooks (db : Database) (u : UserRow) (b : BookRow) : List ShelfRow :=
  db.shelves.filter (fun s =>
    s.user == u.id && (shelfBooksFor db u b).any (fun sb => sb.shelf == s.id))

/-- The `book["shelves"]` value. -/
def shelvesJ (db : Database) (u : UserRow) (b : BookRow) : JVal :=
  .arr ((shelvesFromBooks db u b).map (fun s => valsJ s.vals))

/-- The `shelf_contents` of one shelf: every distinct `ShelfBook` row of the
user on that shelf (not restricted to the current book). -/
def shelfContentsJ (db : Database) (u : UserRow) (s : ShelfRow) : JVal :=
  .arr (((db.shelf_books.filter (fun sb => sb.user == u.id && sb.shelf == s.id)).dedup).map
    (fun sb => valsJ sb.vals))

/-- The `book["shelf_books"]` dictionary, keyed by shelf identifier. -/
def shelfBooksMapJ (db : Database) (u : UserRow) (b : BookRow) : List (String × JVal) :=
  (shelvesFromBooks db u b).foldl (fun m s => setKey m s.identifier (shelfContentsJ db u s)) []

/-- The `book_lists` queryset: the user's distinct lists containing this book
(list membership goes through `ListItem` rows). -/
def bookListsFor (db : Database) (u : UserRow) (b : BookRow) : List BookList :=
  (db.book_lists.filter (fun l =>
    l.user == u.id && db.list_items.any (fun li => li.book_list == l.id && li.book == b.id))).dedup

/-- The `book["lists"]` value. -/
def bookListsJ (db : Database) (u : UserRow) (b : BookRow) : JVal :=
  .arr ((bookListsFor db u b).map (fun l => valsJ l.vals))

/-- The `list_items` of one list: every distinct `ListItem` row of that list
(not restricted to the current book or user). -/
def listItemsJ (db : Database) (l : BookList) : JVal :=
  .arr (((db.list_items.filter (fun li => li.book_list == l.id)).dedup).map
    (fun li => valsJ li.vals))

/-- The `book["list_items"]` dictionary, keyed by list name. -/
def listItemsMapJ (db : Database) (u : UserRow) (b : BookRow) : List (String × JVal) :=
  (bookListsFor db u b).foldl (fun m l => setKey m l.name (listItemsJ db l)) []

/-- The `book["reviews"]` value: the user's distinct reviews of this book. -/
def reviewsJ (db : Database) (u : UserRow) (b : BookRow) : JVal :=
  .arr (((db.reviews.filter (fun r => r.user == u.id && r.book == b.id)).dedup).map
    (fun r => valsJ r.vals))

/-- The `book["comments"]` value: the user's distinct comments on this book. -/
def commentsJ (db : Database) (u : UserRow) (b : BookRow) : JVal :=
  .arr (((db.comments.filter (fun c => c.user == u.id && c.book == b.id)).dedup).map
    (fun c => valsJ c.vals))

/-- The `book["quotes"]` value: the user's distinct quotations of this book. -/
def quotesJ (db : Database) (u : UserRow) (b : BookRow) : JVal :=
  .arr (((db.quotations.filter (fun q => q.user == u.id && q.book == b.id)).dedup).map
    (fun q => valsJ q.vals))

/-- The flat `Book` column mapping the loop starts from (`books.values()`). -/
def flatBookJ (b : BookRow) : List (String × JVal) :=
  b.vals.map (fun p => (p.1, JVal.str p.2))

/-- The loop body of `json_export` once the matching edition `e` is in hand:
the flat `Book` mapping extended, by Python-dict assignment, with the ten
nested keys in source order. -/
def bookEntryCore (db : Database) (u : UserRow) (e : EditionRow) (b : BookRow) :
    List (String × JVal) :=
  setKey (setKey (setKey (setKey (setKey (setKey (setKey (setKey (setKey (setKey
    (flatBookJ b)
    "edition" (valsJ e.vals))
    "authors" (authorsJ db e))
    "readthroughs" (bookReadthroughsJ db u b))
    "shelves" (shelvesJ db u b))
    "shelf_books" (JVal.obj (shelfBooksMapJ db u b)))
    "lists" (bookListsJ db u b))
    "list_items" (JVal.obj (listItemsMapJ db u b)))
    "reviews" (reviewsJ db u b))
    "comments" (commentsJ db u b))
    "quotes" (quotesJ db u b)

/-- The per-book dictionary built inside the `for book in books.values()` loop
of `json_export`.  `none` corresponds to the `IndexError` Python would raise
were there no edition with the book's id (impossible for books produced by
`get_books_for_user`, see `bookEntry_isSome`). -/
def bookEntry (db : Database) (u : UserRow) (editions : List EditionRow) (b : BookRow) :
    Option (List (String × JVal)) :=
  match editions.filter (fun e => e.id == b.id) with
  | [] => none
  | e :: _ => some (bookEntryCore db u e b)

/-- The ten nested keys the loop adds to each book dictionary, in source
order. -/
def nestedKeys : List String :=
  ["edition", "authors", "readthroughs", "shelves", "shelf_books",
   "lists", "list_items", "reviews", "comments", "quotes"]

/-- The ten nested key/value pairs the loop adds to each book dictionary, in
source order. -/
def nestedPairs (db : Database) (u : UserRow) (e : EditionRow) (b : BookRow) :
    List (String × JVal) :=
  [("edition", valsJ e.vals), ("authors", authorsJ db e),
   ("readthroughs", bookReadthroughsJ db u b), ("shelves", shelvesJ db u b),
   ("shelf_books", JVal.obj (shelfBooksMapJ db u b)),
   ("lists", bookListsJ db u b),
   ("list_items", JVal.obj (listItemsMapJ db u b)),
   ("reviews", reviewsJ db u b), ("comments", commentsJ db u b),
   ("quotes", quotesJ db u b)]

/-- The `final_books` list of `json_export`: one entry per row of the `books`
queryset, in order. -/
def finalBooks (db : Database) (u : UserRow) : List JVal :=
  (get_books_for_user db u).2.filterMap
    (fun b => (bookEntry db u (get_books_for_user db u).1 b).map JVal.obj)

/-- The `saved_lists` computation: the remote ids of the user's distinct saved
lists. -/
def savedListsIds (db : Database) (u : UserRow) : List String :=
  ((db.book_lists.filter (fun l => u.saved_lists.contains l.id)).dedup).map
    (fun l => l.remote_id)

/-- The `follows` computation: the distinct follow rows whose subject is the
exporting user, joined back to the followed users (the rows' objects), then
their remote ids. -/
def followsRemoteIds (db : Database) (u : UserRow) : List String :=
  let follows := (db.user_follows.filter (fun f => f.user_subject == u.id)).dedup
  let following := (db.users.filter (fun v => follows.any (fun f => f.user_object == v.id))).dedup
  following.map (fun v => v.remote_id)

/-- The `blocks` computation: as `followsRemoteIds`, over `UserBlocks`. -/
def blocksRemoteIds (db : Database) (u : UserRow) : List String :=
  let blocks := (db.user_blocks.filter (fun f => f.user_subject == u.id)).dedup
  let blocking := (db.users.filter (fun v => blocks.any (fun f => f.user_object == v.id))).dedup
  blocking.map (fun v => v.remote_id)

/-- The `data` dictionary of `json_export` (source lines 194-201), before the
external encoder renders it: the six entries `user`, `goals`, `books`,
`saved_lists`, `follows` and `blocked_users`.  The dead top-level
`readthroughs` variable is bound (and discarded) exactly as in the source. -/
def json_export_data (db : Database) (flt : Faults) (u : UserRow) : JVal :=
  let _readthroughs := jsonExportReadthroughs db flt u
  .obj [("user", .obj (exported_user u)),
        ("goals", .arr (goals_list db flt u)),
        ("books", .arr (finalBooks db u)),
        ("saved_lists", .arr ((savedListsIds db u).map .str)),
        ("follows", .arr ((followsRemoteIds db u).map .str)),
        ("blocked_users", .arr ((blocksRemoteIds db u).map .str))]

mutual

/-- A plain JSON renderer standing in for the external `DjangoJSONEncoder`
(a standard data-interchange encoding, outside the scope of this code). -/
def JVal.encode : JVal → String
  | .str s => "\"" ++ s ++ "\""
  | .nat n => toString n
  | .bool b => if b then "true" else "false"
  | .arr xs => "[" ++ encodeItems xs ++ "]"
  | .obj kvs => "\x7b" ++ encodePairs kvs ++ "\x7d"

/-- Comma-separated rendering of the elements of a JSON array. -/
def encodeItems : List JVal → String
  | [] => ""
  | [x] => x.encode
  | x :: y :: rest => x.encode ++ "," ++ encodeItems (y :: rest)

/-- Comma-separated rendering of the entries of a JSON object. -/
def encodePairs : List (String × JVal) → String
  | [] => ""
  | [(k, v)] => "\"" ++ k ++ "\":" ++ v.encode
  | (k, v) :: q :: rest => "\"" ++ k ++ "\":" ++ v.encode ++ "," ++ encodePairs (q :: rest)

end

/-- `json_export(user)`: assemble the data dictionary and encode it. -/
def json_export (db : Database) (flt : Faults) (u : UserRow) : String :=
  (json_export_data db flt u).encode

/-- The UTF-8 bytes of a string (`str.encode("utf-8")`). -/
def utf8Encode (s : String) : List UInt8 :=
  s.toUTF8.toList

/-- One member written into the export archive: either raw bytes
(`tar.write_bytes`) or an image file (`tar.add_image`), with its optional
explicit filename. -/
inductive TarEntry where
  | bytes (content : List UInt8)
  | image (file : String) (filename : Option String)
deriving DecidableEq, Repr

/-- `tar_export(json_data, user, file)`: the archive members in write order —
the UTF-8 bytes of the JSON payload, then the avatar image when the user has a
truthy avatar, then one cover image per edition of the user's books whose
cover is truthy. -/
def tar_export (db : Database) (json_data : String) (u : UserRow) : List TarEntry :=
  let avatarEntries : List TarEntry :=
    match u.avatar with
    | some av => [TarEntry.image av (some "avatar")]
    | none => []
  let pair := get_books_for_user db u
  let coverEntries := pair.1.filterMap (fun e => e.cover.map (fun c => TarEntry.image c none))
  TarEntry.bytes (utf8Encode json_data) :: (avatarEntries ++ coverEntries)

/-- The persisted columns of a `BookwyrmExportJob` row that this task touches:
the job status, the `complete` flag, and the `export_data` file (modelled as
the archive members written into it, `none` before any file is attached). -/
structure JobRow where
  status : String
  complete : Bool
  export_data : Option (List TarEntry)
deriving DecidableEq, Repr

/-- The in-memory model instance (`job`) next to its database row: Django
mutates the instance and persists chosen fields on `save`. -/
structure JobState where
  mem : JobRow
  row : JobRow
deriving DecidableEq, Repr

/-- The job statuses that end a job. -/
def terminalStatuses : List String := ["complete", "stopped", "failed"]

/-- Modelled from the spec: `ParentJob.set_status` is defined in
`bookwyrm/models/job.py`, outside this slice.  Per the spec, a top-level
failure "marks the job failed" and the task performs "a single job-status side
effect"; per the source comment in `start_export_task`, a job stopped from the
UI has its `complete` flag set, so terminal statuses set `complete`.
Accordingly: setting a status on an already-complete job is a no-op; otherwise
the status is stored, terminal statuses also set the `complete` flag, and the
change is persisted to the row.  The returned flag says whether a status
update was actually performed. -/
def set_status (s : JobState) (st : String) : JobState × Bool :=
  if s.mem.complete then (s, false)
  else
    let mem : JobRow :=
      { s.mem with status := st, complete := terminalStatuses.contains st }
    ({ mem := mem,
       row := { s.row with status := mem.status, complete := mem.complete } }, true)

/-- Modelled from the spec: `job.save(update_fields=["export_data"])` persists
exactly the `export_data` column of the instance into the row. -/
def saveExportData (s : JobState) : JobState :=
  { s with row := { s.row with export_data := s.mem.export_data } }

/-- The observable outcome of one run of `start_export_task`: whether the
early `return` was taken, the row state right after the explicit
`job.save(update_fields=["export_data"])` (when that save happened), the
final in-memory/row state, and how many job-status updates were performed. -/
structure RunResult where
  earlyReturn : Bool
  rowAfterSave : Option JobRow
  final : JobState
  statusUpdates : Nat
deriving DecidableEq, Repr

/-- The body of the `try` block: attach a fresh empty `export_data` file,
build the JSON export, write the tar archive into the file, save the
`export_data` field.  Returns whether the body completed without raising, the
state reached, and the row snapshot right after the explicit save.  A fault at
a step models that step raising; later steps then do not run. -/
def exportTaskBody (db : Database) (flt : Faults) (u : UserRow) (s : JobState) :
    Bool × JobState × Option JobRow :=
  let s1 : JobState := { s with mem := { s.mem with export_data := some [] } }
  if flt.jsonFail then (false, s1, none)
  else
    let json_data := json_export db flt u
    if flt.tarFail then (false, s1, none)
    else
      let s2 : JobState :=
        { s1 with mem := { s1.mem with export_data := some (tar_export db json_data u) } }
      if flt.saveFail then (false, s2, none)
      else
        let s3 := saveExportData s2
        (true, s3, some s3.row)

/-- `start_export_task`: fetch the job row, return early when it is already
complete, otherwise run the body; on an uncaught exception set the status to
"failed"; in every non-early run finally call `set_status("complete")`. -/
def start_export_task (db : Database) (flt : Faults) (u : UserRow) (job : JobRow) :
    RunResult :=
  let s0 : JobState := { mem := job, row := job }
  if job.complete then
    { earlyReturn := true, rowAfterSave := none, final := s0, statusUpdates := 0 }
  else
    let body := exportTaskBody db flt u s0
    let afterTry :=
      if body.1 then (body.2.1, false)
      else set_status body.2.1 "failed"
    let afterComplete := set_status afterTry.1 "complete"
    { earlyReturn := false,
      rowAfterSave := body.2.2,
      final := afterComplete.1,
      statusUpdates :=
        (if afterTry.2 then 1 else 0) + (if afterComplete.2 then 1 else 0) }

/-- A concrete exporting user for the witness theorems. -/
def sampleUser : UserRow :=
  { id := 1, username := "mouse", name := "Mouse", summary := "hello"
    manually_approves_followers := false, hide_follows := false, show_goal := true
    show_suggested_users := true, discoverable := true
    preferred_timezone := "UTC", default_post_privacy := "public"
    avatar := some "/images/avatars/mouse.png"
    remote_id := "https://example.com/user/mouse"
    saved_lists := [40] }

/-- A user the sample user follows. -/
def sampleUser2 : UserRow :=
  { sampleUser with
    id := 2, username := "rat", avatar := none,
    remote_id := "https://example.com/user/rat", saved_lists := [] }

/-- A user the sample user blocks. -/
def sampleUser3 : UserRow :=
  { sampleUser with
    id := 3, username := "snake", avatar := none,
    remote_id := "https://example.com/user/snake", saved_lists := [] }

/-- A concrete database for the witness theorems. -/
def sampleDb : Database :=
  { users := [sampleUser, sampleUser2, sampleUser3]
    editions :=
      [{ id := 10, cover := some "/images/covers/a.jpg", authors := [100]
         vals := [("id", "10"), ("title", "Book A")] },
       { id := 11, cover := none, authors := []
         vals := [("id", "11"), ("title", "Book B")] }]
    books :=
      [{ id := 10, vals := [("id", "10"), ("title", "Book A")] },
       { id := 11, vals := [("id", "11"), ("title", "Book B")] }]
    authors := [{ id := 100, vals := [("id", "100"), ("name", "An Author")] }]
    annual_goals :=
      [{ id := 60, user := 1, goal := 12, year := 2023, privacy := "public" },
       { id := 61, user := 1, goal := 24, year := 2024, privacy := "followers" },
       { id := 62, user := 2, goal := 1, year := 2024, privacy := "public" }]
    readthroughs := [{ id := 70, user := 1, book := 10, vals := [("id", "70")] }]
    shelves := [{ id := 20, user := 1, identifier := "to-read", vals := [("id", "20")] }]
    shelf_books := [{ id := 30, user := 1, shelf := 20, book := 10, vals := [("id", "30")] }]
    book_lists :=
      [{ id := 40, user := 1, name := "faves"
         remote_id := "https://example.com/list/40", vals := [("id", "40")] }]
    list_items := [{ id := 50, book_list := 40, book := 10, vals := [("id", "50")] }]
    reviews := [{ id := 80, user := 1, book := 10, vals := [("id", "80")] }]
    comments := []
    quotations := []
    user_follows := [{ id := 90, user_subject := 1, user_object := 2 }]
    user_blocks := [{ id := 91, user_subject := 1, user_object := 3 }]
    visible := fun _ _ => true }

/-- A concrete pending job row. -/
def sampleJob : JobRow := { status := "pending", complete := false, export_data := none }

/-- A concrete already-complete job row. -/
def sampleDoneJob : JobRow :=
  { status := "stopped", complete := true, export_data := none }

/-- A fault setting where only the tar-writing step raises. -/
def tarFault : Faults :=
  { goalsFailAfter := none, readthroughsFail := false
    jsonFail := false, tarFail := true, saveFail := false }

/-- A fault setting where the goal iteration raises after two rows and the
readthroughs fetch raises. -/
def collectionFaults : Faults :=
  { goalsFailAfter := some 1, readthroughsFail := true
    jsonFail := false, tarFail := false, saveFail := false }

/-- C1: in every non-early run of `start_export_task` whose body raises (while
building the JSON export, writing the tar archive, or saving the job), the
job's status is "failed" when the task finishes — the final unconditional
`set_status("complete")` is a no-op because the failed job is already marked
complete. -/
theorem start_export_task_marks_failed (db : Database) (flt : Faults) (u : UserRow)
    (job : JobRow) (hnc : job.complete = false)
    (hfail : flt.jsonFail = true ∨ flt.tarFail = true ∨ flt.saveFail = true) :
    (start_export_task db flt u job).final.mem.status = "failed" ∧
    (start_export_task db flt u job).final.row.status = "failed" := by
  obtain ⟨g, r, jf, tf, sf⟩ := flt
  cases jf <;> cases tf <;> cases sf <;>
    simp_all [start_export_task, exportTaskBody, set_status, saveExportData, terminalStatuses]

/-- Witness for C1: a concrete run whose tar-writing step raises ends with the
job marked "failed". -/
theorem start_export_task_marks_failed_witness :
    (start_export_task sampleDb tarFault sampleUser sampleJob).final.mem.status = "failed" ∧
    (start_export_task sampleDb tarFault sampleUser sampleJob).final.row.status = "failed" :=
  start_export_task_marks_failed sampleDb tarFault sampleUser sampleJob rfl
    (Or.inr (Or.inl rfl))

/-- C2: every non-early run of `start_export_task` performs exactly one
job-status update — one on the success path, and one on the failure path
(the trailing `set_status("complete")` does not update again). -/
theorem start_export_task_single_status_update (db : Database) (flt : Faults)
    (u : UserRow) (job : JobRow) (hnc : job.complete = false) :
    (start_export_task db flt u job).statusUpdates = 1 := by
  obtain ⟨g, r, jf, tf, sf⟩ := flt
  cases jf <;> cases tf <;> cases sf <;>
    simp_all [start_export_task, exportTaskBody, set_status, saveExportData, terminalStatuses]

/-- Witness for C2: a concrete fault-free run performs exactly one status
update. -/
theorem start_export_task_single_status_update_witness :
    (start_export_task sampleDb noFaults sampleUser sampleJob).statusUpdates = 1 :=
  start_export_task_single_status_update sampleDb noFaults sampleUser sampleJob rfl

/-- C9: a job whose `complete` flag is already set makes `start_export_task`
return immediately with all state unchanged: no export data, no archive, no
status change, no save. -/
theorem start_export_task_early_return (db : Database) (flt : Faults) (u : UserRow)
    (job : JobRow) (hc : job.complete = true) :
    start_export_task db flt u job =
      { earlyReturn := true, rowAfterSave := none,
        final := { mem := job, row := job }, statusUpdates := 0 } := by
  simp [start_export_task, hc]

/-- Witness for C9 at a concrete stopped job. -/
theorem start_export_task_early_return_witness :
    start_export_task sampleDb noFaults sampleUser sampleDoneJob =
      { earlyReturn := true, rowAfterSave := none,
        final := { mem := sampleDoneJob, row := sampleDoneJob }, statusUpdates := 0 } :=
  start_export_task_early_return sampleDb noFaults sampleUser sampleDoneJob rfl

/-- C10: on the success path, the explicit `job.save(update_fields=["export_data"])`
persists exactly the `export_data` field: the row right after that save keeps
the fetched row's `status` and `complete` values and stores the archive. -/
theorem start_export_task_save_only_export_data (db : Database) (flt : Faults)
    (u : UserRow) (job : JobRow) (hnc : job.complete = false)
    (hjson : flt.jsonFail = false) (htar : flt.tarFail = false)
    (hsave : flt.saveFail = false) :
    (start_export_task db flt u job).rowAfterSave =
      some { status := job.status, complete := job.complete,
             export_data := some (tar_export db (json_export db flt u) u) } := by
  simp [start_export_task, exportTaskBody, saveExportData, hnc, hjson, htar, hsave]

/-- Witness for C10 at a concrete fault-free run. -/
theorem start_export_task_save_only_export_data_witness :
    (start_export_task sampleDb noFaults sampleUser sampleJob).rowAfterSave =
      some { status := sampleJob.status, complete := sampleJob.complete,
             export_data :=
               some (tar_export sampleDb (json_export sampleDb noFaults sampleUser)
                 sampleUser) } :=
  start_export_task_save_only_export_data sampleDb noFaults sampleUser sampleJob
    rfl rfl rfl rfl

/-- Auxiliary: the length of a `filterMap` that maps an optional projection is
the count of elements where the projection is present. -/
theorem length_filterMap_option_map {α β γ : Type} (g : α → Option β) (h : β → γ)
    (l : List α) :
    (l.filterMap (fun e => (g e).map h)).length = l.countP (fun e => (g e).isSome) := by
  induction l with
  | nil => rfl
  | cons x xs ih => cases hx : g x <;> simp [List.filterMap_cons, List.countP_cons, hx, ih]

/-- C6: `json_export` returns the encoded rendering of a payload whose
top-level object has exactly the six keys `user`, `goals`, `books`,
`saved_lists`, `follows` and `blocked_users`. -/
theorem json_export_top_level_keys (db : Database) (flt : Faults) (u : UserRow) :
    json_export db flt u = (json_export_data db flt u).encode ∧
    (json_export_data db flt u).topKeys =
      some ["user", "goals", "books", "saved_lists", "follows", "blocked_users"] :=
  ⟨rfl, rfl⟩

/-- C5: the `follows` entry of the payload holds exactly the remote ids of the
users the exporting user follows (the exporting user being the subject of the
follow row), and `blocked_users` exactly the remote ids of the users the
exporting user blocks. -/
theorem json_export_follows_blocks (db : Database) (flt : Faults) (u : UserRow) :
    jfield (json_export_data db flt u) "follows" =
      some (.arr ((followsRemoteIds db u).map .str)) ∧
    jfield (json_export_data db flt u) "blocked_users" =
      some (.arr ((blocksRemoteIds db u).map .str)) ∧
    (∀ r, r ∈ followsRemoteIds db u ↔
      ∃ v ∈ db.users, v.remote_id = r ∧
        ∃ f ∈ db.user_follows, f.user_subject = u.id ∧ f.user_object = v.id) ∧
    (∀ r, r ∈ blocksRemoteIds db u ↔
      ∃ v ∈ db.users, v.remote_id = r ∧
        ∃ f ∈ db.user_blocks, f.user_subject = u.id ∧ f.user_object = v.id) := by
  refine ⟨rfl, rfl, ?_, ?_⟩ <;>
    · intro r
      simp only [followsRemoteIds, blocksRemoteIds, List.mem_map, List.mem_dedup,
        List.mem_filter, List.any_eq_true, beq_iff_eq]
      constructor
      · rintro ⟨v, ⟨hv, f, ⟨hf, hsub⟩, hobj⟩, hr⟩
        exact ⟨v, hv, hr, f, hf, hsub, hobj⟩
      · rintro ⟨v, hv, hr, f, hf, hsub, hobj⟩
        exact ⟨v, ⟨hv, f, ⟨hf, hsub⟩, hobj⟩, hr⟩

/-- C7: the archive written by `tar_export` starts with the UTF-8 encoding of
the JSON payload, followed by images only: the avatar image exactly when the
user has a truthy avatar, and one cover image per edition of the user's books
with a truthy cover — and nothing else. -/
theorem tar_export_contents (db : Database) (json_data : String) (u : UserRow) :
    ∃ imgs : List TarEntry,
      tar_export db json_data u = TarEntry.bytes (utf8Encode json_data) :: imgs ∧
      (∀ t, t ∈ imgs ↔
        (∃ av, u.avatar = some av ∧ t = TarEntry.image av (some "avatar")) ∨
        (∃ e ∈ (get_books_for_user db u).1, ∃ c, e.cover = some c ∧
          t = TarEntry.image c none)) ∧
      imgs.length = (if u.avatar.isSome then 1 else 0) +
        ((get_books_for_user db u).1.countP (fun e => e.cover.isSome)) := by
  have hmem : ∀ t : TarEntry,
      t ∈ (get_books_for_user db u).1.filterMap
          (fun e => e.cover.map (fun c => TarEntry.image c none)) ↔
        ∃ e ∈ (get_books_for_user db u).1, ∃ c, e.cover = some c ∧
          t = TarEntry.image c none := by
    intro t
    simp only [List.mem_filterMap, Option.map_eq_some']
    constructor
    · rintro ⟨e, he, c, hc, rfl⟩
      exact ⟨e, he, c, hc, rfl⟩
    · rintro ⟨e, he, c, hc, rfl⟩
      exact ⟨e, he, c, hc, rfl⟩
  have hlen : ((get_books_for_user db u).1.filterMap
      (fun e => e.cover.map (fun c => TarEntry.image c none))).length =
      (get_books_for_user db u).1.countP (fun e => e.cover.isSome) :=
    length_filterMap_option_map _ _ _
  cases hav : u.avatar with
  | none =>
      refine ⟨(get_books_for_user db u).1.filterMap
        (fun e => e.cover.map (fun c => TarEntry.image c none)), ?_, ?_, ?_⟩
      · simp [tar_export, hav]
      · intro t
        rw [hmem t]
        simp [hav]
      · rw [hlen]
        simp [hav]
  | some av =>
      refine ⟨TarEntry.image av (some "avatar") :: (get_books_for_user db u).1.filterMap
        (fun e => e.cover.map (fun c => TarEntry.image c none)), ?_, ?_, ?_⟩
      · simp [tar_export, hav]
      · intro t
        simp only [List.mem_cons, hmem t, hav]
        constructor
        · rintro (rfl | h)
          · exact Or.inl ⟨av, rfl, rfl⟩
          · exact Or.inr h
        · rintro (⟨av', hav', rfl⟩ | h)
          · cases hav'
            exact Or.inl rfl
          · exact Or.inr h
      · simp only [List.length_cons, hlen, hav, Option.isSome_some, if_pos]
        omega

/-- C3: exceptions raised while iterating the reading goals or fetching the
read-throughs are suppressed: the goal iteration keeps the entries collected
before the failure, the readthroughs collection becomes the empty list, and
every other part of the payload is exactly that of a fault-free run. -/
theorem json_export_suppresses_collection_failures (db : Database) (u : UserRow)
    (flt : Faults) (k : Nat) (hg : flt.goalsFailAfter = some k)
    (hr : flt.readthroughsFail = true) :
    jsonExportReadthroughs db flt u = [] ∧
    (∃ gs : List JVal,
      jfield (json_export_data db noFaults u) "goals" = some (.arr gs) ∧
      jfield (json_export_data db flt u) "goals" = some (.arr (gs.take k))) ∧
    (∀ key, key ≠ "goals" →
      jfield (json_export_data db flt u) key =
        jfield (json_export_data db noFaults u) key) := by
  refine ⟨by simp [jsonExportReadthroughs, hr], ?_, ?_⟩
  · refine ⟨((db.annual_goals.filter (fun g => g.user == u.id)).dedup).map goalEntry,
      ?_, ?_⟩
    · simp [json_export_data, jfield, jlookup, goals_list, noFaults]
    · simp [json_export_data, jfield, jlookup, goals_list, hg, List.map_take]
  · intro key hkey
    have hk : ¬("goals" = key) := fun h => hkey h.symm
    simp [json_export_data, jfield, jlookup, hk]

/-- Witness for C3 at concrete faults: goal iteration raising after one row
and the readthroughs fetch raising. -/
theorem json_export_suppresses_collection_failures_witness :
    jsonExportReadthroughs sampleDb collectionFaults sampleUser = [] ∧
    (∃ gs : List JVal,
      jfield (json_export_data sampleDb noFaults sampleUser) "goals" = some (.arr gs) ∧
      jfield (json_export_data sampleDb collectionFaults sampleUser) "goals" =
        some (.arr (gs.take 1))) ∧
    (∀ key, key ≠ "goals" →
      jfield (json_export_data sampleDb collectionFaults sampleUser) key =
        jfield (json_export_data sampleDb noFaults sampleUser) key) :=
  json_export_suppresses_collection_failures sampleDb sampleUser collectionFaults 1 rfl rfl

/-- Membership characterization of the editions returned by
`get_books_for_user`. -/
theorem mem_get_books_editions (db : Database) (u : UserRow) (e : EditionRow) :
    e ∈ (get_books_for_user db u).1 ↔
      e ∈ db.editions ∧ db.visible e.id u.id = true ∧ editionMatches db u e = true := by
  simp only [get_books_for_user, viewer_aware_objects, List.mem_dedup, List.mem_filter]
  tauto

/-- Membership characterization of the `Book` rows returned by
`get_books_for_user`. -/
theorem mem_get_books_books (db : Database) (u : UserRow) (b : BookRow) :
    b ∈ (get_books_for_user db u).2 ↔
      b ∈ db.books ∧ ∃ e ∈ (get_books_for_user db u).1, e.id = b.id := by
  simp only [get_books_for_user, List.mem_dedup, List.mem_filter, List.any_eq_true,
    beq_iff_eq]

/-- C4: `get_books_for_user` returns the distinct viewer-aware editions
related to the user through at least one of the six relations (shelves,
readthroughs, reviews, lists, comments, quotations), with no duplicates, and
`Book` rows whose ids are exactly the ids of those editions (every edition has
a parent `Book` row under multi-table inheritance). -/
theorem get_books_for_user_spec (db : Database) (u : UserRow)
    (hparent : ∀ e ∈ db.editions, ∃ b ∈ db.books, b.id = e.id) :
    (get_books_for_user db u).1.Nodup ∧
    (∀ e, e ∈ (get_books_for_user db u).1 ↔
      e ∈ db.editions ∧ db.visible e.id u.id = true ∧ editionMatches db u e = true) ∧
    (∀ i : Nat, (∃ b ∈ (get_books_for_user db u).2, b.id = i) ↔
      ∃ e ∈ (get_books_for_user db u).1, e.id = i) := by
  refine ⟨List.nodup_dedup _, fun e => mem_get_books_editions db u e, fun i => ?_⟩
  constructor
  · rintro ⟨b, hb, hbi⟩
    obtain ⟨-, e, he, hei⟩ := (mem_get_books_books db u b).1 hb
    exact ⟨e, he, by omega⟩
  · rintro ⟨e, he, hei⟩
    have he' : e ∈ db.editions := ((mem_get_books_editions db u e).1 he).1
    obtain ⟨b, hb, hbi⟩ := hparent e he'
    refine ⟨b, (mem_get_books_books db u b).2 ⟨hb, e, he, by omega⟩, by omega⟩

/-- Witness for C4 at the concrete sample database. -/
theorem get_books_for_user_spec_witness :
    (get_books_for_user sampleDb sampleUser).1.Nodup ∧
    (∀ e, e ∈ (get_books_for_user sampleDb sampleUser).1 ↔
      e ∈ sampleDb.editions ∧ sampleDb.visible e.id sampleUser.id = true ∧
        editionMatches sampleDb sampleUser e = true) ∧
    (∀ i : Nat, (∃ b ∈ (get_books_for_user sampleDb sampleUser).2, b.id = i) ↔
      ∃ e ∈ (get_books_for_user sampleDb sampleUser).1, e.id = i) :=
  get_books_for_user_spec sampleDb sampleUser (by decide)

/-- Python-dict assignment of a fresh key appends it at the end. -/
theorem setKey_of_absent (kvs : List (String × JVal)) (k : String) (v : JVal)
    (h : ∀ p ∈ kvs, p.1 ≠ k) : setKey kvs k v = kvs ++ [(k, v)] := by
  induction kvs with
  | nil => rfl
  | cons p rest ih =>
      have hp : p.1 ≠ k := h p (List.mem_cons_self p rest)
      simp only [setKey, if_neg hp, List.cons_append, List.cons.injEq, true_and]
      exact ih fun q hq => h q (List.mem_cons_of_mem p hq)

/-- Looking up the key just assigned returns the assigned value. -/
theorem jlookup_setKey_self (m : List (String × JVal)) (k : String) (v : JVal) :
    jlookup (setKey m k v) k = some v := by
  induction m with
  | nil => simp [setKey, jlookup]
  | cons p rest ih =>
      by_cases hp : p.1 = k
      · simp [setKey, hp, jlookup]
      · simp [setKey, hp, jlookup, ih]

/-- Assigning one key leaves lookups of other keys unchanged. -/
theorem jlookup_setKey_of_ne (m : List (String × JVal)) (k k' : String) (v : JVal)
    (h : k' ≠ k) : jlookup (setKey m k v) k' = jlookup m k' := by
  have hk : ¬(k = k') := fun hh => h hh.symm
  induction m with
  | nil => simp only [setKey, jlookup, if_neg hk]
  | cons p rest ih =>
      by_cases hp : p.1 = k
      · simp only [setKey, if_pos hp, jlookup]
        rw [if_neg hk, if_neg (by rw [hp]; exact hk)]
      · simp only [setKey, if_neg hp, jlookup]
        by_cases hpk : p.1 = k'
        · simp [hpk]
        · simp [hpk, ih]

/-- Folding dict assignments whose keys all differ from `k` leaves the lookup
of `k` unchanged. -/
theorem jlookup_foldl_setKey_of_absent {α : Type} (g : α → String) (f : α → JVal)
    (l : List α) (m0 : List (String × JVal)) (k : String)
    (h : ∀ y ∈ l, g y ≠ k) :
    jlookup (l.foldl (fun m s => setKey m (g s) (f s)) m0) k = jlookup m0 k := by
  induction l generalizing m0 with
  | nil => rfl
  | cons s rest ih =>
      rw [List.foldl_cons, ih _ (fun y hy => h y (List.mem_cons_of_mem s hy))]
      exact jlookup_setKey_of_ne m0 (g s) k (f s)
        (fun hk => h s (List.mem_cons_self s rest) hk.symm)

/-- Folding dict assignments keyed by a function with no duplicate keys stores
each element's value at its key. -/
theorem jlookup_foldl_setKey {α : Type} (g : α → String) (f : α → JVal)
    (l : List α) (m0 : List (String × JVal)) (x : α) (hx : x ∈ l)
    (hnd : (l.map g).Nodup) :
    jlookup (l.foldl (fun m s => setKey m (g s) (f s)) m0) (g x) = some (f x) := by
  induction l generalizing m0 with
  | nil => cases hx
  | cons s rest ih =>
      simp only [List.map_cons, List.nodup_cons] at hnd
      rw [List.foldl_cons]
      rcases List.mem_cons.1 hx with rfl | hx'
      · have habs : ∀ y ∈ rest, g y ≠ g x := by
          intro y hy heq
          exact hnd.1 (heq ▸ List.mem_map_of_mem g hy)
        rw [jlookup_foldl_setKey_of_absent g f rest _ (g x) habs]
        exact jlookup_setKey_self m0 (g x) (f x)
      · exact ih (setKey m0 (g s) (f s)) hx' hnd.2

/-- Folding dict assignments of fresh pairwise-distinct keys appends the new
pairs in order. -/
theorem foldl_setKey_append (adds : List (String × JVal)) (flat : List (String × JVal))
    (hnd : (adds.map (fun q => q.1)).Nodup)
    (habs : ∀ p ∈ flat, ∀ q ∈ adds, p.1 ≠ q.1) :
    adds.foldl (fun m q => setKey m q.1 q.2) flat = flat ++ adds := by
  induction adds generalizing flat with
  | nil => simp
  | cons q rest ih =>
      simp only [List.map_cons, List.nodup_cons] at hnd
      have h1 : setKey flat q.1 q.2 = flat ++ [q] :=
        setKey_of_absent flat q.1 q.2 (fun p hp => habs p hp q (List.mem_cons_self q rest))
      have h2 : ∀ p ∈ flat ++ [q], ∀ r ∈ rest, p.1 ≠ r.1 := by
        intro p hp r hr
        rcases List.mem_append.1 hp with h | h
        · exact habs p h r (List.mem_cons_of_mem q hr)
        · rcases List.mem_singleton.1 h with rfl
          intro heq
          exact hnd.1 (heq ▸ List.mem_map_of_mem _ hr)
      rw [List.foldl_cons, h1, ih (flat ++ [q]) hnd.2 h2, List.append_assoc]
      rfl

/-- For a book produced by `get_books_for_user` there is always a matching
edition, so the loop body never raises the `IndexError`. -/
theorem bookEntry_isSome (db : Database) (u : UserRow) (b : BookRow)
    (hb : b ∈ (get_books_for_user db u).2) :
    ∃ e rest, (get_books_for_user db u).1.filter (fun x => x.id == b.id) = e :: rest ∧
      bookEntry db u (get_books_for_user db u).1 b = some (bookEntryCore db u e b) := by
  obtain ⟨-, e0, he0, heid⟩ := (mem_get_books_books db u b).1 hb
  cases hcase : (get_books_for_user db u).1.filter (fun x => x.id == b.id) with
  | nil =>
      exfalso
      have hmem : e0 ∈ (get_books_for_user db u).1.filter (fun x => x.id == b.id) :=
        List.mem_filter.2 ⟨he0, by simp [heid]⟩
      rw [hcase] at hmem
      cases hmem
  | cons e rest =>
      exact ⟨e, rest, rfl, by simp [bookEntry, hcase]⟩

/-- C8: for every book returned by `get_books_for_user`, the corresponding
entry of the payload's books list is the book's flat field mapping extended,
in order, with the nested keys `edition`, `authors`, `readthroughs`,
`shelves`, `shelf_books` (keyed by shelf identifier), `lists`, `list_items`
(keyed by list name), `reviews`, `comments` and `quotes`, each restricted to
that user and that book — except the `shelf_books` and `list_items` maps,
which hold every item of the matched shelf or list.  The flat keys are assumed
disjoint from the ten nested names and the user's shelf identifiers and list
names pairwise distinct, as the external schema guarantees. -/
theorem json_export_book_entry_spec (db : Database) (flt : Faults) (u : UserRow)
    (b : BookRow) (hb : b ∈ (get_books_for_user db u).2)
    (hflat : ∀ p ∈ b.vals, p.1 ∉ nestedKeys)
    (hshelf : ((db.shelves.filter (fun s => s.user == u.id)).map
      (fun s => s.identifier)).Nodup)
    (hlists : ((db.book_lists.filter (fun l => l.user == u.id)).map
      (fun l => l.name)).Nodup) :
    ∃ (e : EditionRow) (entry : List (String × JVal)),
      ((get_books_for_user db u).1.filter (fun x => x.id == b.id)).head? = some e ∧
      bookEntry db u (get_books_for_user db u).1 b = some entry ∧
      jfield (json_export_data db flt u) "books" = some (.arr (finalBooks db u)) ∧
      JVal.obj entry ∈ finalBooks db u ∧
      entry = flatBookJ b ++ nestedPairs db u e b ∧
      (∀ s ∈ shelvesFromBooks db u b,
        jlookup (shelfBooksMapJ db u b) s.identifier = some (shelfContentsJ db u s)) ∧
      (∀ l ∈ bookListsFor db u b,
        jlookup (listItemsMapJ db u b) l.name = some (listItemsJ db l)) := by
  obtain ⟨e, rest, hcase, hsome⟩ := bookEntry_isSome db u b hb
  have hkeysN : ∀ q ∈ nestedPairs db u e b, q.1 ∈ nestedKeys := by
    intro q hq
    simp only [nestedPairs, List.mem_cons, List.not_mem_nil, or_false] at hq
    rcases hq with rfl | rfl | rfl | rfl | rfl | rfl | rfl | rfl | rfl | rfl <;>
      simp [nestedKeys]
  have hflat' : ∀ p ∈ flatBookJ b, ∀ q ∈ nestedPairs db u e b, p.1 ≠ q.1 := by
    intro p hp q hq heq
    obtain ⟨r, hr, rfl⟩ := List.mem_map.1 hp
    have hqk : q.1 ∈ nestedKeys := hkeysN q hq
    rw [← heq] at hqk
    exact hflat r hr hqk
  have hnd : ((nestedPairs db u e b).map (fun q => q.1)).Nodup := by
    simp only [nestedPairs, List.map_cons, List.map_nil]
    decide
  refine ⟨e, bookEntryCore db u e b, by rw [hcase]; rfl, hsome, ?_, ?_, ?_, ?_, ?_⟩
  · simp [json_export_data, jfield, jlookup]
  · simp only [finalBooks]
    exact List.mem_filterMap.2 ⟨b, hb, by rw [hsome]; rfl⟩
  · calc bookEntryCore db u e b
        = (nestedPairs db u e b).foldl (fun m q => setKey m q.1 q.2) (flatBookJ b) := rfl
      _ = flatBookJ b ++ nestedPairs db u e b := foldl_setKey_append _ _ hnd hflat'
  · intro s hs
    have hsubS : List.Sublist (shelvesFromBooks db u b)
        (db.shelves.filter (fun s => s.user == u.id)) := by
      unfold shelvesFromBooks
      rw [← List.filter_filter]
      exact (List.filter_sublist _).filter _
    exact jlookup_foldl_setKey (fun s => s.identifier) (fun s => shelfContentsJ db u s)
      (shelvesFromBooks db u b) [] s hs (hshelf.sublist (hsubS.map _))
  · intro l hl
    have hsubL : List.Sublist (bookListsFor db u b)
        (db.book_lists.filter (fun l => l.user == u.id)) := by
      unfold bookListsFor
      refine (List.dedup_sublist _).trans ?_
      rw [← List.filter_filter]
      exact (List.filter_sublist _).filter _
    exact jlookup_foldl_setKey (fun l => l.name) (fun l => listItemsJ db l)
      (bookListsFor db u b) [] l hl (hlists.sublist (hsubL.map _))

/-- Witness for C8: the sample book as stored in the sample database. -/
theorem json_export_book_entry_spec_witness :
    ∃ (e : EditionRow) (entry : List (String × JVal)),
      ((get_books_for_user sampleDb sampleUser).1.filter
        (fun x => x.id == (10 : Nat))).head? = some e ∧
      bookEntry sampleDb sampleUser (get_books_for_user sampleDb sampleUser).1
        { id := 10, vals := [("id", "10"), ("title", "Book A")] } = some entry ∧
      jfield (json_export_data sampleDb noFaults sampleUser) "books" =
        some (.arr (finalBooks sampleDb sampleUser)) ∧
      JVal.obj entry ∈ finalBooks sampleDb sampleUser ∧
      entry = flatBookJ { id := 10, vals := [("id", "10"), ("title", "Book A")] } ++
        nestedPairs sampleDb sampleUser e
          { id := 10, vals := [("id", "10"), ("title", "Book A")] } ∧
      (∀ s ∈ shelvesFromBooks sampleDb sampleUser
          { id := 10, vals := [("id", "10"), ("title", "Book A")] },
        jlookup (shelfBooksMapJ sampleDb sampleUser
            { id := 10, vals := [("id", "10"), ("title", "Book A")] }) s.identifier =
          some (shelfContentsJ sampleDb sampleUser s)) ∧
      (∀ l ∈ bookListsFor sampleDb sampleUser
          { id := 10, vals := [("id", "10"), ("title", "Book A")] },
        jlookup (listItemsMapJ sampleDb sampleUser
            { id := 10, vals := [("id", "10"), ("title", "Book A")] }) l.name =
          some (listItemsJ sampleDb l)) :=
  json_export_book_entry_spec sampleDb noFaults sampleUser
    { id := 10, vals := [("id", "10"), ("title", "Book A")] }
    (by decide) (by decide) (by decide) (by decide)
